import Mathlib

/-!
Verification development for the puteron task-lifecycle engine.

The development shallowly embeds the two planner/driver source files:

* `src/source/puteron/src/demon/run.rs` — the running demon: state store,
  planner traversals (`do_start_task`, `do_stop_task`, `push_started`,
  `push_stopped`, `set_task_user_on`, `set_task_user_off`,
  `propagate_task_transitive_on`, the nested `on_stopping`), the request
  handlers (`TaskAdd`, `TaskGetSpec`, `TaskOn`, `TaskWaitStarted`),
  `build_task`, `delete_task` and `task_find_cycles`, plus the under-lock
  sections of the Long/Short task drivers.
* `src/source/puteron-bin/src/demon/task_plan.rs` — the plan-building
  planner (`ExecutePlan`, `plan_start_one_task`, `plan_stop_one_task`,
  `plan_set_task_direct_on` and the propagation helpers).

Modelling conventions:

* Hash maps become association lists (`List (TaskId × _)`); iteration order
  of a Rust `HashMap` is unspecified, the list order stands in for it.
* Every call of `Utc::now()` reads a logical clock (a `Nat`) and bumps it,
  so stored timestamps record the order of mutations.
* Rust `panic!` / `unreachable!` / failed `unwrap()` set a sticky
  `panicked` flag on the run-side state.
* Graph traversals are while-loops over explicit work stacks in the source;
  they become fuel-indexed recursive functions (the source loops can
  diverge on cyclic stores, so fuel is essential, and ample fuel is passed
  at concrete call sites).
* Blocking work done outside the global lock (process spawning, TERM/KILL
  delivery, readiness probes, syslog forwarding, the scheduler) is not
  modelled; the driver code run under the lock is embedded as the
  `long_publish_*` / `short_on_*` functions.
-/

namespace Puteron

abbrev TaskId := String

inductive DependencyType where
  | strong
  | weak
deriving DecidableEq

inductive ProcState where
  | stopped
  | starting
  | started
  | stopping
deriving DecidableEq

inductive LogKind where
  | starting
  | started
  | stopping
  | stopped
deriving DecidableEq

deriving instance DecidableEq for Except

/-- Association-list lookup, keyed by `TaskId` (stands in for `HashMap::get`). -/
def alookup {α : Type} : List (TaskId × α) → TaskId → Option α
  | [], _ => none
  | (k, v) :: t, id => if k = id then some v else alookup t id

/-- In-place update of one entry (stands in for updating through a `Cell`). -/
def aupdate {α : Type} : List (TaskId × α) → TaskId → (α → α) → List (TaskId × α)
  | [], _, _ => []
  | (k, v) :: t, id, f => if k = id then (k, f v) :: t else (k, v) :: aupdate t id f

/-- Insert or replace (stands in for `HashMap::insert`; a fresh key is appended). -/
def ainsert {α : Type} (l : List (TaskId × α)) (id : TaskId) (v : α) : List (TaskId × α) :=
  if (alookup l id).isSome then aupdate l id (fun _ => v) else l ++ [(id, v)]

/-- Remove a key (stands in for `HashMap::remove`). -/
def aremove {α : Type} (l : List (TaskId × α)) (id : TaskId) : List (TaskId × α) :=
  l.filter (fun p => !(p.1 == id))

/-- Set-flavoured insert into a list standing in for a `HashSet`. -/
def sinsert (id : TaskId) (l : List TaskId) : List TaskId :=
  if id ∈ l then l else id :: l

/-! ## Task specs (the `interface::task` types of puteron-lib)

Modelled from the spec: the task-spec types live in the interface crate,
which is not under `src/`. The fields kept are the ones the embedded code
reads: `default_on`, `upstream`, and for Short tasks the schedule (only its
emptiness matters), `success_codes` and `started_action`. Fields never read
by the embedded logic (command line, environment, timeouts, readiness
checks) are omitted; they would only ride along through spec equality. -/

inductive ShortTaskStartedAction where
  | none
  | turnOff
  | delete
deriving DecidableEq

structure EmptySpec where
  default_on : Bool
  upstream : List (TaskId × DependencyType)
deriving DecidableEq

structure LongSpec where
  default_on : Bool
  upstream : List (TaskId × DependencyType)
deriving DecidableEq

structure ShortSpec where
  default_on : Bool
  upstream : List (TaskId × DependencyType)
  schedule : List Nat
  success_codes : List Int
  started_action : Option ShortTaskStartedAction
deriving DecidableEq

/-- Modelled from the spec: `interface::task::Task`, the discriminated union
of task specs (`Empty`, `Long`, `Short`, `External`). -/
inductive Task where
  | empty (spec : EmptySpec)
  | long (spec : LongSpec)
  | short (spec : ShortSpec)
  | external
deriving DecidableEq

/-! ## Runtime state (the `state.rs` types used by run.rs)

Modelled from the spec where the defining module (`state.rs`) is not under
`src/`: the kind-specific sub-records (§3 of the spec), with the oneshot
stop channel modelled as a `Bool` (a channel is currently installed) and
waiter lists as counters. -/

structure TaskStateEmpty where
  started : Bool × Nat
  spec : EmptySpec
deriving DecidableEq

structure TaskStateLong where
  spec : LongSpec
  state : ProcState × Nat
  stop : Bool
  pid : Option Nat
  failed_start_count : Nat
deriving DecidableEq

structure TaskStateShort where
  spec : ShortSpec
  state : ProcState × Nat
  stop : Bool
  pid : Option Nat
  failed_start_count : Nat
deriving DecidableEq

inductive TaskStateSpecific where
  | empty (s : TaskStateEmpty)
  | long (s : TaskStateLong)
  | short (s : TaskStateShort)
  | external
deriving DecidableEq

/-- One task record (`TaskState_` in state.rs; `user_on` is the spec's
`direct_on`). The task id is the key of the store's association list. -/
structure TaskState_ where
  user_on : Bool × Nat
  transitive_on : Bool × Nat
  specific : TaskStateSpecific
  started_waiters : Nat
  stopped_waiters : Nat
deriving DecidableEq

instance : Inhabited TaskState_ :=
  ⟨{ user_on := (false, 0), transitive_on := (false, 0), specific := .external,
     started_waiters := 0, stopped_waiters := 0 }⟩

/-- The store guarded by the global lock (`StateDynamic` in state.rs), with
the logical clock, the observable state-change log (the `log_starting` /
`log_started` / `log_stopping` / `log_stopped` prints of run.rs, in
emission order) and the sticky panic marker. The scheduler fields are not
modelled. -/
structure StateDynamic where
  tasks : List (TaskId × TaskState_)
  downstream : List (TaskId × List (TaskId × DependencyType))
  clock : Nat
  log : List (LogKind × TaskId)
  panicked : Bool
deriving DecidableEq

/-- Read the clock (one `Utc::now()` call) and advance it. -/
def tickD (s : StateDynamic) : Nat × StateDynamic :=
  (s.clock, { s with clock := s.clock + 1 })

/-- Record that the source would have panicked here (`unreachable!`,
`panic!`, or a failed `unwrap`). -/
def markPanic (s : StateDynamic) : StateDynamic :=
  { s with panicked := true }

/-- Append one observable state-change print (run.rs 140-158). -/
def log_event (k : LogKind) (id : TaskId) (s : StateDynamic) : StateDynamic :=
  { s with log := s.log ++ [(k, id)] }

/-- Modelled from the spec: the `upstream` accessor of state.rs — the
upstream map lives on the kind-specific spec and `External` has none. -/
def upstreamOf (t : TaskState_) : List (TaskId × DependencyType) :=
  match t.specific with
  | .empty s => s.spec.upstream
  | .long s => s.spec.upstream
  | .short s => s.spec.upstream
  | .external => []

/-- Modelled from the spec: `task_on` of state.rs — §3: `is_on(t) :=
direct_on(t) ∨ transitive_on(t)`. -/
def task_on (t : TaskState_) : Bool :=
  t.user_on.1 || t.transitive_on.1

/-- Modelled from the spec: `task_started` of state.rs — §3: the `started`
flag for Empty, `proc_state = Started` for Long/Short, false for External. -/
def task_started (t : TaskState_) : Bool :=
  match t.specific with
  | .empty s => s.started.1
  | .long s => decide (s.state.1 = ProcState.started)
  | .short s => decide (s.state.1 = ProcState.started)
  | .external => false

/-- Modelled from the spec: `task_stopped` of state.rs — §3: `¬started` for
Empty, `proc_state = Stopped` for Long/Short, true for External. -/
def task_stopped (t : TaskState_) : Bool :=
  match t.specific with
  | .empty s => !s.started.1
  | .long s => decide (s.state.1 = ProcState.stopped)
  | .short s => decide (s.state.1 = ProcState.stopped)
  | .external => true

/-- Modelled from the spec: `all_upstream_tasks_started` of state.rs — §4.2:
every upstream (weak included) exists and is started; a dead link counts as
not started. -/
def all_upstream_tasks_started (s : StateDynamic) (t : TaskState_) : Bool :=
  (upstreamOf t).all fun u =>
    match alookup s.tasks u.1 with
    | some ut => task_started ut
    | none => false

/-- The reverse-index entry for a task (`state_dynamic.downstream.get(id)`,
absent entry read as empty). -/
def downstream_of (s : StateDynamic) (id : TaskId) : List (TaskId × DependencyType) :=
  (alookup s.downstream id).getD []

/-- Embeds `all_downstream_tasks_stopped` (run.rs 865-877): every task in
the reverse-index entry exists and is stopped; a missing one counts as not
stopped. -/
def all_downstream_tasks_stopped (s : StateDynamic) (id : TaskId) : Bool :=
  (downstream_of s id).all fun d =>
    match alookup s.tasks d.1 with
    | some dt => task_stopped dt
    | none => false

/-! ### Field setters (each stands in for one `Cell::set` on a task record) -/

def setUserOn (s : StateDynamic) (id : TaskId) (v : Bool × Nat) : StateDynamic :=
  { s with tasks := aupdate s.tasks id (fun t => { t with user_on := v }) }

def setTransitiveOn (s : StateDynamic) (id : TaskId) (v : Bool × Nat) : StateDynamic :=
  { s with tasks := aupdate s.tasks id (fun t => { t with transitive_on := v }) }

def setSpecific (s : StateDynamic) (id : TaskId) (f : TaskStateSpecific → TaskStateSpecific) :
    StateDynamic :=
  { s with tasks := aupdate s.tasks id (fun t => { t with specific := f t.specific }) }

def setEmptyStarted (s : StateDynamic) (id : TaskId) (v : Bool × Nat) : StateDynamic :=
  setSpecific s id fun sp =>
    match sp with
    | .empty e => .empty { e with started := v }
    | o => o

def setLongState (s : StateDynamic) (id : TaskId) (v : ProcState × Nat) : StateDynamic :=
  setSpecific s id fun sp =>
    match sp with
    | .long l => .long { l with state := v }
    | o => o

def setLongStop (s : StateDynamic) (id : TaskId) (b : Bool) : StateDynamic :=
  setSpecific s id fun sp =>
    match sp with
    | .long l => .long { l with stop := b }
    | o => o

def setLongFailed (s : StateDynamic) (id : TaskId) (n : Nat) : StateDynamic :=
  setSpecific s id fun sp =>
    match sp with
    | .long l => .long { l with failed_start_count := n }
    | o => o

def setShortState (s : StateDynamic) (id : TaskId) (v : ProcState × Nat) : StateDynamic :=
  setSpecific s id fun sp =>
    match sp with
    | .short sh => .short { sh with state := v }
    | o => o

def setShortStop (s : StateDynamic) (id : TaskId) (b : Bool) : StateDynamic :=
  setSpecific s id fun sp =>
    match sp with
    | .short sh => .short { sh with stop := b }
    | o => o

def setShortPid (s : StateDynamic) (id : TaskId) (p : Option Nat) : StateDynamic :=
  setSpecific s id fun sp =>
    match sp with
    | .short sh => .short { sh with pid := p }
    | o => o

def setShortFailed (s : StateDynamic) (id : TaskId) (n : Nat) : StateDynamic :=
  setSpecific s id fun sp =>
    match sp with
    | .short sh => .short { sh with failed_start_count := n }
    | o => o

def bumpShortFailed (s : StateDynamic) (id : TaskId) : StateDynamic :=
  setSpecific s id fun sp =>
    match sp with
    | .short sh => .short { sh with failed_start_count := sh.failed_start_count + 1 }
    | o => o

/-- The strong-upstream ids of a task, in map order (the repeated
`upstream(...)` walks of run.rs that skip `Weak` edges). -/
def strongUpstreamIds (t : TaskState_) : List TaskId :=
  ((upstreamOf t).filter fun u => decide (u.2 = DependencyType.strong)).map Prod.fst

/-! ## run.rs planner: the start cluster

`do_start_task` (run.rs 885-1387) with its nested `on_starting` /
`on_started`, and `push_started` (run.rs 1614-1634). The Long/Short arms
spawn the driver future: under the lock this marks the task Starting and
installs the stop oneshot; the driver's own lock re-entries are embedded
separately below. The External arm is the source's `unreachable!`
(run.rs 1385). -/

mutual

/-- Embeds `do_start_task` (run.rs 885-1387). Returns true iff the task is
started now (so downstream can be started). -/
def do_start_task : Nat → StateDynamic → TaskId → StateDynamic × Bool
  | 0, s, _ => (s, false)
  | fuel+1, s, id =>
    match alookup s.tasks id with
    | none => (markPanic s, false)
    | some t =>
      if all_upstream_tasks_started s t then
        if task_started t then (s, true)
        else
          match t.specific with
          | .empty _ =>
            let s := log_event .starting id s
            let (now, s) := tickD s
            let s := setEmptyStarted s id (true, now)
            (on_started fuel s id, true)
          | .long l =>
            if l.state.1 = ProcState.stopped then
              let (now, s) := tickD s
              let s := setLongState s id (.starting, now)
              let s := setLongStop s id true
              (s, false)
            else (s, false)
          | .short sh =>
            if sh.state.1 = ProcState.stopped then
              let (now, s) := tickD s
              let s := setShortState s id (.starting, now)
              let s := setShortStop s id true
              (s, false)
            else (s, false)
          | .external => (markPanic s, false)
      else (s, false)

/-- Embeds the nested `on_started` (run.rs 1036-1039). -/
def on_started : Nat → StateDynamic → TaskId → StateDynamic
  | 0, s, _ => s
  | fuel+1, s, id => push_started fuel (log_event .started id s) id

/-- Embeds `push_started` (run.rs 1614-1634). -/
def push_started : Nat → StateDynamic → TaskId → StateDynamic
  | 0, s, _ => s
  | fuel+1, s, id => push_started_loop fuel s ((downstream_of s id).map Prod.fst)

/-- The work-stack loop of `push_started` (run.rs 1624-1633). -/
def push_started_loop : Nat → StateDynamic → List TaskId → StateDynamic
  | 0, s, _ => s
  | _+1, s, [] => s
  | fuel+1, s, id :: rest =>
    match alookup s.tasks id with
    | none => push_started_loop fuel (markPanic s) rest
    | some t =>
      if task_on t then
        let (s, r) := do_start_task fuel s id
        if r then push_started_loop fuel s ((downstream_of s id).map Prod.fst ++ rest)
        else push_started_loop fuel s rest
      else push_started_loop fuel s rest

end

/-! ## run.rs planner: the stop cluster

`do_stop_task` (run.rs 1452-1482), `on_stopped` (run.rs 879-882) and
`push_stopped` (run.rs 1636-1667). -/

mutual

/-- Embeds `do_stop_task` (run.rs 1452-1482). Returns true iff the task is
finished stopping (so upstream can be stopped). The Long/Short arms take
the stop oneshot if present, signal it and mark Stopping; the External arm
is the source's `unreachable!` (run.rs 1480). -/
def do_stop_task : Nat → StateDynamic → TaskId → StateDynamic × Bool
  | 0, s, _ => (s, false)
  | fuel+1, s, id =>
    match alookup s.tasks id with
    | none => (markPanic s, false)
    | some t =>
      if all_downstream_tasks_stopped s id then
        if task_stopped t then (s, true)
        else
          match t.specific with
          | .empty _ =>
            let s := log_event .stopping id s
            let (now, s) := tickD s
            let s := setEmptyStarted s id (false, now)
            (on_stopped fuel s id, true)
          | .long l =>
            if l.stop then
              let s := setLongStop s id false
              let (now, s) := tickD s
              (setLongState s id (.stopping, now), false)
            else (s, false)
          | .short sh =>
            if sh.stop then
              let s := setShortStop s id false
              let (now, s) := tickD s
              (setShortState s id (.stopping, now), false)
            else (s, false)
          | .external => (markPanic s, false)
      else (s, false)

/-- Embeds `on_stopped` (run.rs 879-882). -/
def on_stopped : Nat → StateDynamic → TaskId → StateDynamic
  | 0, s, _ => s
  | fuel+1, s, id => push_stopped fuel (log_event .stopped id s) id

/-- Embeds `push_stopped` (run.rs 1636-1667): only strong upstream edges
are pushed. -/
def push_stopped : Nat → StateDynamic → TaskId → StateDynamic
  | 0, s, _ => s
  | fuel+1, s, id =>
    match alookup s.tasks id with
    | none => markPanic s
    | some t => push_stopped_loop fuel s (strongUpstreamIds t)

/-- The work-stack loop of `push_stopped` (run.rs 1654-1666); a dead
upstream link is skipped. -/
def push_stopped_loop : Nat → StateDynamic → List TaskId → StateDynamic
  | 0, s, _ => s
  | _+1, s, [] => s
  | fuel+1, s, id :: rest =>
    match alookup s.tasks id with
    | none => push_stopped_loop fuel s rest
    | some t =>
      if task_on t then push_stopped_loop fuel s rest
      else
        let (s, r) := do_stop_task fuel s id
        if r then push_stopped_loop fuel s (strongUpstreamIds t ++ rest)
        else push_stopped_loop fuel s rest

end

/-- The work-stack loop of the nested `on_stopping` (run.rs 1019-1027):
started downstream tasks are stopped and their own downstream enqueued. -/
def on_stopping_loop : Nat → StateDynamic → List TaskId → StateDynamic
  | 0, s, _ => s
  | _+1, s, [] => s
  | fuel+1, s, id :: rest =>
    match alookup s.tasks id with
    | none => on_stopping_loop fuel (markPanic s) rest
    | some t =>
      if task_started t then
        let (s, _) := do_stop_task fuel s id
        on_stopping_loop fuel s ((downstream_of s id).map Prod.fst ++ rest)
      else on_stopping_loop fuel s rest

/-- Embeds the nested `on_stopping` (run.rs 1011-1028). -/
def on_stopping (fuel : Nat) (s : StateDynamic) (id : TaskId) : StateDynamic :=
  on_stopping_loop fuel (log_event .stopping id s) ((downstream_of s id).map Prod.fst)

/-- The two-phase work-stack loop of `propagate_task_transitive_on`
(run.rs 1391-1420): pre-visit sets `transitive_on` and descends through
strong upstream edges; post-visit starts the node once its upstream is all
started. -/
def propagate_transitive_on_loop : Nat → StateDynamic → List (Bool × TaskId) → StateDynamic
  | 0, s, _ => s
  | _+1, s, [] => s
  | fuel+1, s, (first, id) :: rest =>
    if first then
      match alookup s.tasks id with
      | none => propagate_transitive_on_loop fuel s rest
      | some t =>
        let was_on := task_on t
        let (now, s) := tickD s
        let s := setTransitiveOn s id (true, now)
        if was_on then propagate_transitive_on_loop fuel s rest
        else
          propagate_transitive_on_loop fuel s
            ((strongUpstreamIds t).map (fun u => (true, u)) ++ (false, id) :: rest)
    else
      match alookup s.tasks id with
      | none => propagate_transitive_on_loop fuel (markPanic s) rest
      | some t =>
        if all_upstream_tasks_started s t then
          let (s, _) := do_start_task fuel s id
          propagate_transitive_on_loop fuel s rest
        else propagate_transitive_on_loop fuel s rest

/-- Embeds `propagate_task_transitive_on` (run.rs 1389-1421). -/
def propagate_task_transitive_on (fuel : Nat) (s : StateDynamic) (root : TaskId) : StateDynamic :=
  propagate_transitive_on_loop fuel s [(true, root)]

/-- Embeds `set_task_user_on` (run.rs 1423-1449). Note: after setting
`user_on` (with a fresh timestamp, even when already on) and cascading
through the strong upstream, it calls `push_started` on the root, which
starts the root's downstream only — the root itself is started only if the
upstream cascade reaches it from one of its own upstream tasks. -/
def set_task_user_on (fuel : Nat) (s : StateDynamic) (root : TaskId) : StateDynamic :=
  match alookup s.tasks root with
  | none => markPanic s
  | some t =>
    let was_on := task_on t
    let (now, s) := tickD s
    let s := setUserOn s root (true, now)
    if was_on then s
    else
      let s := (strongUpstreamIds t).foldl
        (fun s dep => propagate_task_transitive_on fuel s dep) s
      push_started fuel s root

/-- The transitive-off work-stack loop of `set_task_user_off`
(run.rs 1514-1559): clears `transitive_on` on each on upstream whose strong
downstream tasks are all off, recursing further upstream. A downstream id
absent from the store is unreachable (index invariant) and read as off. -/
def transitive_off_loop : Nat → StateDynamic → List TaskId → StateDynamic
  | 0, s, _ => s
  | _+1, s, [] => s
  | fuel+1, s, id :: rest =>
    match alookup s.tasks id with
    | none => transitive_off_loop fuel s rest
    | some t =>
      if task_on t then
        let all_downstream_off := (downstream_of s id).all fun d =>
          if d.2 = DependencyType.weak then true
          else
            match alookup s.tasks d.1 with
            | some dt => !task_on dt
            | none => true
        if all_downstream_off then
          let (now, s) := tickD s
          let s := setTransitiveOn s id (false, now)
          transitive_off_loop fuel s (strongUpstreamIds t ++ rest)
        else transitive_off_loop fuel s rest
      else transitive_off_loop fuel s rest

/-- Keep everything but flip the top of the `all_downstream_stopped` stack
to false (`*parent_all_downstream_stopped = false`, run.rs 1597/1600). -/
def setHeadFalse : List Bool → List Bool
  | [] => []
  | _ :: t => false :: t

/-- The bottom-up weak-downstream stop loop of `set_task_user_off`
(run.rs 1562-1605), with its parallel `all_downstream_stopped_stack`. -/
def user_off_stop_loop : Nat → StateDynamic → List (Bool × TaskId) → List Bool →
    StateDynamic × List Bool
  | 0, s, _, stk => (s, stk)
  | _+1, s, [], stk => (s, stk)
  | fuel+1, s, (first, id) :: rest, stk =>
    if first then
      match alookup s.tasks id with
      | none => user_off_stop_loop fuel (markPanic s) rest stk
      | some t =>
        if task_started t then
          let weakDown := ((downstream_of s id).filter fun d =>
            decide (d.2 = DependencyType.weak)).map fun d => (true, d.1)
          user_off_stop_loop fuel s (weakDown ++ (false, id) :: rest) (true :: stk)
        else user_off_stop_loop fuel s rest stk
    else
      match alookup s.tasks id with
      | none => user_off_stop_loop fuel (markPanic s) rest stk
      | some _ =>
        match stk with
        | [] => (markPanic s, [])
        | all_ds :: stk' =>
          if all_ds then
            let (s, r) := do_stop_task fuel s id
            if r then user_off_stop_loop fuel s rest stk'
            else user_off_stop_loop fuel s rest (setHeadFalse stk')
          else user_off_stop_loop fuel s rest (setHeadFalse stk')

/-- Embeds `set_task_user_off` (run.rs 1484-1612). Returns true iff the
task finished stopping. -/
def set_task_user_off (fuel : Nat) (s : StateDynamic) (id : TaskId) : StateDynamic × Bool :=
  match alookup s.tasks id with
  | none => (markPanic s, false)
  | some t =>
    if task_on t then
      let (now, s) := tickD s
      let s := setUserOn s id (false, now)
      if t.transitive_on.1 then (s, false)
      else
        let s := transitive_off_loop fuel s (strongUpstreamIds t)
        let (s, stk) := user_off_stop_loop fuel s [(true, id)] [true]
        let stopped := stk.headD false
        if stopped then (push_stopped fuel s id, stopped) else (s, stopped)
    else (s, task_stopped t)

/-! ## Store maintenance: build, delete, cycle detection -/

/-- Mirror every upstream edge of a new record into the reverse index
(`state_dynamic.downstream.entry(..).or_default().insert(..)`,
run.rs 443-448 / 456-461 / 480-485). -/
def addDownstreamEdges (s : StateDynamic) (id : TaskId)
    (ups : List (TaskId × DependencyType)) : StateDynamic :=
  { s with downstream := ups.foldl (fun ds u =>
      ainsert ds u.1 (ainsert ((alookup ds u.1).getD []) id u.2)) s.downstream }

/-- The common tail of `build_task`: the fresh `TaskState_` record
(run.rs 499-506), with its two `Utc::now()` reads. -/
def mkTaskState (s : StateDynamic) (specific : TaskStateSpecific) :
    TaskState_ × StateDynamic :=
  let (n1, s) := tickD s
  let (n2, s) := tickD s
  ({ user_on := (false, n1), transitive_on := (false, n2), specific := specific,
     started_waiters := 0, stopped_waiters := 0 }, s)

/-- Embeds `build_task` (run.rs 439-508). The schedule registration for
Short tasks (run.rs 472-479) belongs to the unmodelled scheduler. -/
def build_task (s : StateDynamic) (id : TaskId) (spec : Task) : StateDynamic :=
  match spec with
  | .empty sp =>
    let s := addDownstreamEdges s id sp.upstream
    let (now, s) := tickD s
    let (t, s) := mkTaskState s (.empty { started := (false, now), spec := sp })
    { s with tasks := ainsert s.tasks id t }
  | .long sp =>
    let s := addDownstreamEdges s id sp.upstream
    let (now, s) := tickD s
    let (t, s) := mkTaskState s
      (.long { spec := sp, state := (ProcState.stopped, now), stop := false,
               pid := none, failed_start_count := 0 })
    { s with tasks := ainsert s.tasks id t }
  | .short sp =>
    let s := addDownstreamEdges s id sp.upstream
    let (now, s) := tickD s
    let (t, s) := mkTaskState s
      (.short { spec := sp, state := (ProcState.stopped, now), stop := false,
                pid := none, failed_start_count := 0 })
    { s with tasks := ainsert s.tasks id t }
  | .external =>
    let (t, s) := mkTaskState s .external
    { s with tasks := ainsert s.tasks id t }

/-- Embeds `delete_task` (run.rs 406-437): remove the record and prune its
mirror entries from the reverse index (an emptied entry is dropped). The
schedule purge (run.rs 422-436) belongs to the unmodelled scheduler. -/
def delete_task (s : StateDynamic) (id : TaskId) : StateDynamic :=
  match alookup s.tasks id with
  | none => markPanic s
  | some t =>
    let downstream := (upstreamOf t).foldl (fun ds u =>
      let entry := aremove ((alookup ds u.1).getD []) id
      if entry.isEmpty then aremove ds u.1 else ainsert ds u.1 entry) s.downstream
    { s with tasks := aremove s.tasks id, downstream := downstream }

/-- The work-stack loop of `task_find_cycles` (run.rs 371-402): `path` is
the current traversal path oldest-first, `cycle_free` the memo set. -/
def task_find_cycles_loop : Nat → StateDynamic → List TaskId → List (Bool × TaskId) →
    List TaskId → Option (List TaskId)
  | 0, _, _, _, _ => none
  | _+1, _, _, [], _ => none
  | fuel+1, s, cycle_free, (first, id) :: rest, path =>
    if first then
      if id ∈ cycle_free then task_find_cycles_loop fuel s cycle_free rest path
      else
        match path.findIdx? (fun x => x == id) with
        | some offset => some (path.drop offset ++ [id])
        | none =>
          let ups := match alookup s.tasks id with
            | some t => (upstreamOf t).map fun u => (true, u.1)
            | none => []
          task_find_cycles_loop fuel s cycle_free (ups ++ (false, id) :: rest) (path ++ [id])
    else
      task_find_cycles_loop fuel s (id :: cycle_free) rest path.dropLast

/-- Embeds `task_find_cycles` (run.rs 364-404), walking upstream from
`id`; a task id absent from the store is a dead link and is not descended
into. -/
def task_find_cycles (fuel : Nat) (s : StateDynamic) (id : TaskId) : Option (List TaskId) :=
  task_find_cycles_loop fuel s [] [(true, id)] []

/-! ## Request handlers (run.rs 537-745) -/

/-- The `same` comparison of the TaskAdd handler (run.rs 549-555). -/
def taskSpecEq (spec : Task) (st : TaskStateSpecific) : Bool :=
  match spec, st with
  | .empty n, .empty o => decide (n = o.spec)
  | .long n, .long o => decide (n = o.spec)
  | .short n, .short o => decide (n = o.spec)
  | .external, .external => true
  | _, _ => false

/-- The part of the TaskAdd handler after the existing-task check
(run.rs 562-599): cycle check (note: before `build_task` inserts the new
record), creation, and the turn-on logic. The source's cycle error carries
the cycle's debug print; the fixed prefix stands in for it. -/
def request_task_add_core (fuel : Nat) (s : StateDynamic) (id : TaskId) (spec : Task) :
    Except String Unit × StateDynamic :=
  match task_find_cycles fuel s id with
  | some _cycle => (.error "Task cycle detected", s)
  | none =>
    let user_on := match spec with
      | .empty sp => sp.default_on
      | .long sp => sp.default_on
      | .short sp => sp.default_on
      | .external => false
    let s := build_task s id spec
    let transitive := (downstream_of s id).any fun d =>
      decide (d.2 = DependencyType.strong) &&
        (match alookup s.tasks d.1 with
         | some dt => task_on dt
         | none => false)
    if user_on then (.ok (), set_task_user_on fuel s id)
    else if transitive then
      let s := propagate_task_transitive_on fuel s id
      (.ok (), push_started fuel s id)
    else (.ok (), s)

/-- Embeds the `Request::TaskAdd` handler (run.rs 537-600). -/
def request_task_add (fuel : Nat) (s : StateDynamic) (id : TaskId) (spec : Task)
    (unique : Bool) : Except String Unit × StateDynamic :=
  match alookup s.tasks id with
  | some t =>
    if unique then
      if task_stopped t then
        if taskSpecEq spec t.specific then (.ok (), s)
        else request_task_add_core fuel (delete_task s id) id spec
      else (.error "Task isn't stopped yet", s)
    else (.error "A task with this ID already exists", s)
  | none => request_task_add_core fuel s id spec

/-- The spec a record reproduces (the match of run.rs 662-675). -/
def specOf : TaskStateSpecific → Task
  | .empty e => .empty e.spec
  | .long l => .long l.spec
  | .short sh => .short sh.spec
  | .external => .external

/-- Embeds the `Request::TaskGetSpec` handler (run.rs 655-677). -/
def request_task_get_spec (s : StateDynamic) (id : TaskId) : Except String Task :=
  match alookup s.tasks id with
  | none => .error ("Unknown task [" ++ id ++ "]")
  | some t => .ok (specOf t.specific)

/-- Embeds the `Request::TaskOn` handler (run.rs 678-687). -/
def request_task_on (fuel : Nat) (s : StateDynamic) (id : TaskId) (turn_on : Bool) :
    Except String Unit × StateDynamic :=
  if turn_on then (.ok (), set_task_user_on fuel s id)
  else (.ok (), (set_task_user_off fuel s id).1)

/-- How the under-lock section of a wait request resolves. -/
inductive WaitOutcome where
  | immediateError (msg : String)
  | immediateOk
  | waits
deriving DecidableEq

/-- Embeds the under-lock section of the `Request::TaskWaitStarted` handler
(run.rs 688-703; the suspension on the oneshot happens outside the lock
and is not modelled — the `waits` outcome records that a waiter was
attached). -/
def request_task_wait_started (s : StateDynamic) (id : TaskId) : WaitOutcome × StateDynamic :=
  match alookup s.tasks id with
  | none => (.immediateError ("Unknown task [" ++ id ++ "]"), s)
  | some t =>
    if task_on t then
      if task_started t then (.immediateOk, s)
      else
        (.waits,
         { s with
            tasks := aupdate s.tasks id fun t =>
              { t with started_waiters := t.started_waiters + 1 } })
    else (.immediateError ("Task [" ++ id ++ "] is not on"), s)

/-! ## Driver lock re-entries (the under-lock sections of the Long/Short
driver futures in `do_start_task`) -/

/-- Embeds the Long driver's started publication (run.rs 1109-1118): mark
Started, clear the failure counter, fire `on_started`. -/
def long_publish_started (fuel : Nat) (s : StateDynamic) (id : TaskId) : StateDynamic :=
  match alookup s.tasks id with
  | none => markPanic s
  | some t =>
    match t.specific with
    | .long _ =>
      let (now, s) := tickD s
      let s := setLongState s id (.started, now)
      let s := setLongFailed s id 0
      on_started fuel s id
    | _ => markPanic s

/-- Embeds the Long driver's stop-signal arm up to releasing the lock
(run.rs 1130-1140): mark Stopping, fire the nested `on_stopping`. The
TERM/KILL exchange that follows happens outside the lock. -/
def long_publish_stopping (fuel : Nat) (s : StateDynamic) (id : TaskId) : StateDynamic :=
  match alookup s.tasks id with
  | none => markPanic s
  | some t =>
    match t.specific with
    | .long _ =>
      let (now, s) := tickD s
      let s := setLongState s id (.stopping, now)
      on_stopping fuel s id
    | _ => markPanic s

/-- Embeds the Long driver's child-exit arm's under-lock section
(run.rs 1165-1177): on a spontaneous child exit the driver fires the nested
`on_stopping` (while the task is still in its previous state — the Stopping
state itself is never written on this path; the spec's §4.4 describes this
as publishing Stopping then Starting) and then marks Starting for the
restart loop. -/
def long_on_exit (fuel : Nat) (s : StateDynamic) (id : TaskId) : StateDynamic :=
  match alookup s.tasks id with
  | none => markPanic s
  | some t =>
    match t.specific with
    | .long _ =>
      let s := on_stopping fuel s id
      let (now, s) := tickD s
      setLongState s id (.starting, now)
    | _ => markPanic s

/-- The effective success-exit codes (run.rs 1222-1226): `success_codes`,
defaulting to `{0}` when empty. -/
def successCodesOf (spec : ShortSpec) : List Int :=
  if spec.success_codes.isEmpty then [0] else spec.success_codes

/-- The success-exit tail shared by the TurnOff and Delete `started_action`
arms (run.rs 1274-1280): log started/stopping/stopped and turn the task
off; the record is not removed here. -/
def short_success_turn_off (fuel : Nat) (s : StateDynamic) (id : TaskId) : StateDynamic :=
  let s := log_event .started id s
  let s := log_event .stopping id s
  let s := log_event .stopped id s
  (set_task_user_off fuel s id).1

/-- Embeds the Short driver's child-exit arm (run.rs 1242-1325). `code` is
the exit code (`none` when the child died without one, run.rs 1246 treats
that as non-success). Returns the driver-loop `done` flag. -/
def short_on_exit (fuel : Nat) (s : StateDynamic) (id : TaskId) (code : Option Int) :
    StateDynamic × Bool :=
  match alookup s.tasks id with
  | none => (markPanic s, false)
  | some t =>
    match t.specific with
    | .short sp =>
      let success := match code with
        | some c => decide (c ∈ successCodesOf sp.spec)
        | none => false
      if success then
        let s := setShortFailed s id 0
        let action := match sp.spec.started_action with
          | some a => a
          | none =>
            if sp.spec.schedule.isEmpty then ShortTaskStartedAction.none
            else ShortTaskStartedAction.turnOff
        let (now, s) := tickD s
        let s := setShortState s id (.started, now)
        match action with
        | .none => (on_started fuel s id, true)
        | .turnOff | .delete => (short_success_turn_off fuel s id, true)
      else
        let s := on_stopping fuel s id
        let (now, s) := tickD s
        let s := setShortState s id (.starting, now)
        let s := bumpShortFailed s id
        (log_event .starting id s, false)
    | _ => (markPanic s, false)

/-- Embeds the Short driver's stop-signal arm (run.rs 1326-1361): mark
Stopping, fire `on_stopping`, (TERM/KILL outside the lock), mark Stopped,
clear the pid, fire `on_stopped`, and — only here — delete the record when
`started_action = Delete`. -/
def short_on_stop (fuel : Nat) (s : StateDynamic) (id : TaskId) : StateDynamic :=
  match alookup s.tasks id with
  | none => markPanic s
  | some t =>
    match t.specific with
    | .short sp =>
      let (now, s) := tickD s
      let s := setShortState s id (.stopping, now)
      let s := on_stopping fuel s id
      let (now2, s) := tickD s
      let s := setShortState s id (.stopped, now2)
      let s := setShortPid s id none
      let s := on_stopped fuel s id
      match sp.spec.started_action with
      | some .delete => delete_task s id
      | _ => s
    | _ => markPanic s

/-- Invariant 4 of the spec as a checker: every started task has every
strong-upstream present and started. -/
def strong_upstream_started_inv (s : StateDynamic) : Bool :=
  s.tasks.all fun p =>
    !task_started p.2 ||
      (upstreamOf p.2).all fun u =>
        !(decide (u.2 = DependencyType.strong)) ||
          (match alookup s.tasks u.1 with
           | some ut => task_started ut
           | none => false)

/-! ## task_plan.rs (puteron-bin): the plan-building planner

The puteron-bin crate has its own state types: its `TaskStateSpecific` has
no External variant (the match in `plan_start_one_task`, task_plan.rs
82-103, is exhaustive over Empty/Long/Short) and the operator flag is
named `direct_on`. The record carries its upstream map directly (read
through `walk_task_upstream` of task_util, which is not under `src/`;
modelled from the spec §3). -/

inductive PSpecific where
  | empty (started : Bool × Nat)
  | long (state : ProcState × Nat)
  | short (state : ProcState × Nat)
deriving DecidableEq

/-- A puteron-bin task record (`TaskState_` of that crate), keyed by id in
the store's association list. -/
structure PTask where
  direct_on : Bool × Nat
  transitive_on : Bool × Nat
  upstream : List (TaskId × DependencyType)
  specific : PSpecific
deriving DecidableEq

/-- The puteron-bin store, with the logical clock. -/
structure PlanState where
  tasks : List (TaskId × PTask)
  downstream : List (TaskId × List (TaskId × DependencyType))
  clock : Nat
deriving DecidableEq

/-- The pending-work sets built by one planner invocation (task_plan.rs
33-42); the `HashSet`s become dedup lists. -/
structure ExecutePlan where
  log_starting : List TaskId
  log_started : List TaskId
  log_stopping : List TaskId
  log_stopped : List TaskId
  start : List TaskId
  stop : List TaskId
deriving DecidableEq

def emptyPlan : ExecutePlan :=
  { log_starting := [], log_started := [], log_stopping := [], log_stopped := [],
    start := [], stop := [] }

/-- Read the clock (one `Utc::now()` call) and advance it. -/
def ptick (s : PlanState) : Nat × PlanState :=
  (s.clock, { s with clock := s.clock + 1 })

/-- Modelled from the spec: `is_task_on` of task_util (not under `src/`) —
§3: `is_on(t) := direct_on(t) ∨ transitive_on(t)`. -/
def is_task_on (t : PTask) : Bool :=
  t.direct_on.1 || t.transitive_on.1

/-- Modelled from the spec: `is_task_started` of task_util (not under
`src/`) — §3. -/
def is_task_started (t : PTask) : Bool :=
  match t.specific with
  | .empty st => st.1
  | .long st => decide (st.1 = ProcState.started)
  | .short st => decide (st.1 = ProcState.started)

/-- Modelled from the spec: `is_task_stopped` of task_util (not under
`src/`) — §3. -/
def is_task_stopped (t : PTask) : Bool :=
  match t.specific with
  | .empty st => !st.1
  | .long st => decide (st.1 = ProcState.stopped)
  | .short st => decide (st.1 = ProcState.stopped)

/-- Modelled from the spec: `are_all_upstream_tasks_started` of task_util
(not under `src/`) — §4.2: every upstream (weak included) exists and is
started. -/
def are_all_upstream_tasks_started (s : PlanState) (t : PTask) : Bool :=
  t.upstream.all fun u =>
    match alookup s.tasks u.1 with
    | some ut => is_task_started ut
    | none => false

/-- The reverse-index entry for a task (`task.downstream.borrow()`). -/
def plan_downstream_of (s : PlanState) (id : TaskId) : List (TaskId × DependencyType) :=
  (alookup s.downstream id).getD []

/-- Modelled from the spec: `are_all_downstream_tasks_stopped` of task_util
(not under `src/`) — §4.2, symmetric to the upstream predicate and matching
`all_downstream_tasks_stopped` of run.rs 865-877. -/
def are_all_downstream_tasks_stopped (s : PlanState) (id : TaskId) : Bool :=
  (plan_downstream_of s id).all fun d =>
    match alookup s.tasks d.1 with
    | some dt => is_task_stopped dt
    | none => false

def planSetDirectOn (s : PlanState) (id : TaskId) (v : Bool × Nat) : PlanState :=
  { s with tasks := aupdate s.tasks id (fun t => { t with direct_on := v }) }

def planSetTransitiveOn (s : PlanState) (id : TaskId) (v : Bool × Nat) : PlanState :=
  { s with tasks := aupdate s.tasks id (fun t => { t with transitive_on := v }) }

def planSetEmptyStarted (s : PlanState) (id : TaskId) (v : Bool × Nat) : PlanState :=
  { s with tasks := aupdate s.tasks id fun t =>
      match t.specific with
      | .empty _ => { t with specific := .empty v }
      | _ => t }

def planSetShortState (s : PlanState) (id : TaskId) (v : ProcState × Nat) : PlanState :=
  { s with tasks := aupdate s.tasks id fun t =>
      match t.specific with
      | .short _ => { t with specific := .short v }
      | _ => t }

/-- The strong-upstream ids of a record, in map order (the `push_frontier`
closures of task_plan.rs that skip `Weak` edges). -/
def pStrongUpstreamIds (t : PTask) : List TaskId :=
  (t.upstream.filter fun u => decide (u.2 = DependencyType.strong)).map Prod.fst

/-- Embeds `plan_event_starting` (task_plan.rs 45-47). -/
def plan_event_starting (plan : ExecutePlan) (id : TaskId) : ExecutePlan :=
  { plan with log_starting := sinsert id plan.log_starting }

mutual

/-- Embeds `plan_event_started` (task_plan.rs 50-53). -/
def plan_event_started : Nat → PlanState → ExecutePlan → TaskId → PlanState × ExecutePlan
  | 0, s, p, _ => (s, p)
  | fuel+1, s, p, id =>
    propagate_start_downstream fuel s { p with log_started := sinsert id p.log_started } id

/-- Embeds `plan_event_stopping` (task_plan.rs 56-67): log, then stop every
transitive downstream via a work stack. -/
def plan_event_stopping : Nat → PlanState → ExecutePlan → TaskId → PlanState × ExecutePlan
  | 0, s, p, _ => (s, p)
  | fuel+1, s, p, id =>
    plan_event_stopping_loop fuel s { p with log_stopping := sinsert id p.log_stopping }
      ((plan_downstream_of s id).map Prod.fst)

/-- The work-stack loop of `plan_event_stopping` (task_plan.rs 60-66); note
the source descends unconditionally after each stop attempt. -/
def plan_event_stopping_loop : Nat → PlanState → ExecutePlan → List TaskId →
    PlanState × ExecutePlan
  | 0, s, p, _ => (s, p)
  | _+1, s, p, [] => (s, p)
  | fuel+1, s, p, id :: rest =>
    let (s, p, _) := plan_stop_one_task fuel s p id
    plan_event_stopping_loop fuel s p ((plan_downstream_of s id).map Prod.fst ++ rest)

/-- Embeds `plan_event_stopped` (task_plan.rs 70-72). -/
def plan_event_stopped : Nat → PlanState → ExecutePlan → TaskId → PlanState × ExecutePlan
  | 0, s, p, _ => (s, p)
  | fuel+1, s, p, id => propagate_stop_upstream fuel s p id

/-- Embeds `plan_start_one_task` (task_plan.rs 75-104). Returns true iff
the task is started now. -/
def plan_start_one_task : Nat → PlanState → ExecutePlan → TaskId →
    PlanState × ExecutePlan × Bool
  | 0, s, p, _ => (s, p, false)
  | fuel+1, s, p, id =>
    match alookup s.tasks id with
    | none => (s, p, false)
    | some t =>
      if are_all_upstream_tasks_started s t then
        if is_task_started t then (s, p, true)
        else
          match t.specific with
          | .empty _ =>
            let p := plan_event_starting p id
            let (now, s) := ptick s
            let s := planSetEmptyStarted s id (true, now)
            let (s, p) := plan_event_started fuel s p id
            (s, p, true)
          | .long st =>
            if st.1 = ProcState.stopped then (s, { p with start := sinsert id p.start }, false)
            else (s, p, false)
          | .short st =>
            if st.1 = ProcState.stopped then (s, { p with start := sinsert id p.start }, false)
            else (s, p, false)
      else (s, p, false)

/-- Embeds `plan_stop_one_task` (task_plan.rs 107-136). Returns true iff
the task is finished stopping. -/
def plan_stop_one_task : Nat → PlanState → ExecutePlan → TaskId →
    PlanState × ExecutePlan × Bool
  | 0, s, p, _ => (s, p, false)
  | fuel+1, s, p, id =>
    match alookup s.tasks id with
    | none => (s, p, false)
    | some t =>
      if are_all_downstream_tasks_stopped s id then
        if is_task_stopped t then (s, p, true)
        else
          match t.specific with
          | .empty _ =>
            let (s, p) := plan_event_stopping fuel s p id
            let (now, s) := ptick s
            let s := planSetEmptyStarted s id (false, now)
            let p := { p with log_stopped := sinsert id p.log_stopped }
            let (s, p) := plan_event_stopped fuel s p id
            (s, p, true)
          | .long _ => (s, { p with stop := sinsert id p.stop }, false)
          | .short st =>
            if st.1 = ProcState.started then
              let p := { p with log_stopping := sinsert id p.log_stopping }
              let (now, s) := ptick s
              (planSetShortState s id (ProcState.stopped, now), p, false)
            else (s, { p with stop := sinsert id p.stop }, false)
      else (s, p, false)

/-- Embeds `propagate_start_downstream` (task_plan.rs 305-323). -/
def propagate_start_downstream : Nat → PlanState → ExecutePlan → TaskId →
    PlanState × ExecutePlan
  | 0, s, p, _ => (s, p)
  | fuel+1, s, p, id =>
    propagate_start_downstream_loop fuel s p ((plan_downstream_of s id).map Prod.fst)

/-- The work-stack loop of `propagate_start_downstream`
(task_plan.rs 313-322). -/
def propagate_start_downstream_loop : Nat → PlanState → ExecutePlan → List TaskId →
    PlanState × ExecutePlan
  | 0, s, p, _ => (s, p)
  | _+1, s, p, [] => (s, p)
  | fuel+1, s, p, id :: rest =>
    match alookup s.tasks id with
    | none => propagate_start_downstream_loop fuel s p rest
    | some t =>
      if is_task_on t then
        let (s, p, r) := plan_start_one_task fuel s p id
        if r then
          propagate_start_downstream_loop fuel s p
            ((plan_downstream_of s id).map Prod.fst ++ rest)
        else propagate_start_downstream_loop fuel s p rest
      else propagate_start_downstream_loop fuel s p rest

/-- Embeds `propagate_stop_upstream` (task_plan.rs 327-349): pushes every
upstream edge, weak included. -/
def propagate_stop_upstream : Nat → PlanState → ExecutePlan → TaskId →
    PlanState × ExecutePlan
  | 0, s, p, _ => (s, p)
  | fuel+1, s, p, id =>
    match alookup s.tasks id with
    | none => (s, p)
    | some t => propagate_stop_upstream_loop fuel s p (t.upstream.map Prod.fst)

/-- The work-stack loop of `propagate_stop_upstream` (task_plan.rs 339-348). -/
def propagate_stop_upstream_loop : Nat → PlanState → ExecutePlan → List TaskId →
    PlanState × ExecutePlan
  | 0, s, p, _ => (s, p)
  | _+1, s, p, [] => (s, p)
  | fuel+1, s, p, id :: rest =>
    match alookup s.tasks id with
    | none => propagate_stop_upstream_loop fuel s p rest
    | some t =>
      if is_task_on t then propagate_stop_upstream_loop fuel s p rest
      else
        let (s, p, r) := plan_stop_one_task fuel s p id
        if r then propagate_stop_upstream_loop fuel s p (t.upstream.map Prod.fst ++ rest)
        else propagate_stop_upstream_loop fuel s p rest

end

/-- The two-phase strong-upstream work-stack loop of
`plan_set_task_direct_on` (task_plan.rs 148-184): pre-visit sets
`transitive_on` and descends; post-visit starts the node when its upstream
is all started. -/
def plan_on_upstream_loop : Nat → PlanState → ExecutePlan → List (Bool × TaskId) →
    PlanState × ExecutePlan
  | 0, s, p, _ => (s, p)
  | _+1, s, p, [] => (s, p)
  | fuel+1, s, p, (first, id) :: rest =>
    if first then
      match alookup s.tasks id with
      | none => plan_on_upstream_loop fuel s p rest
      | some t =>
        let was_on := is_task_on t
        let (now, s) := ptick s
        let s := planSetTransitiveOn s id (true, now)
        if was_on then plan_on_upstream_loop fuel s p rest
        else
          plan_on_upstream_loop fuel s p
            ((pStrongUpstreamIds t).map (fun u => (true, u)) ++ (false, id) :: rest)
    else
      match alookup s.tasks id with
      | none => plan_on_upstream_loop fuel s p rest
      | some t =>
        if are_all_upstream_tasks_started s t then
          let (s, p, _) := plan_start_one_task fuel s p id
          plan_on_upstream_loop fuel s p rest
        else plan_on_upstream_loop fuel s p rest

/-- Embeds `plan_set_task_direct_on` (task_plan.rs 138-197). Note the
source sets `direct_on` (with a fresh timestamp) before the early return
for already-on tasks; after the upstream cascade it attempts to start the
root itself and, on success, walks downstream. -/
def plan_set_task_direct_on (fuel : Nat) (s : PlanState) (p : ExecutePlan) (root : TaskId) :
    PlanState × ExecutePlan :=
  match alookup s.tasks root with
  | none => (s, p)
  | some t =>
    let was_on := is_task_on t
    let (now, s) := ptick s
    let s := planSetDirectOn s root (true, now)
    if was_on then (s, p)
    else
      let (s, p) := plan_on_upstream_loop fuel s p
        ((pStrongUpstreamIds t).map (fun u => (true, u)))
      match alookup s.tasks root with
      | none => (s, p)
      | some t2 =>
        if are_all_upstream_tasks_started s t2 then
          let (s, p, r) := plan_start_one_task fuel s p root
          if r then propagate_start_downstream fuel s p root
          else (s, p)
        else (s, p)

/-! ## Derived views -/

/-- The per-task spec projection of a run-side store. The planner
traversals mutate only on-flags, process states, channels and counters,
never this view. -/
def specsView (s : StateDynamic) : List (TaskId × Task) :=
  s.tasks.map fun p => (p.1, specOf p.2.specific)

/-- The `started` cell of an Empty plan-side task (flag and timestamp). -/
def emptyStartedFlag (s : PlanState) (id : TaskId) : Bool × Nat :=
  match alookup s.tasks id with
  | some t => match t.specific with | .empty st => st | _ => (false, 0)
  | none => (false, 0)

/-! ## Concrete stores for the claim theorems and witnesses -/

def emptyDyn : StateDynamic :=
  { tasks := [], downstream := [], clock := 0, log := [], panicked := false }

/-- An off, stopped Empty plan-side record with the given upstream map. -/
def mkPTaskEmpty (ups : List (TaskId × DependencyType)) : PTask :=
  { direct_on := (false, 0), transitive_on := (false, 0), upstream := ups,
    specific := .empty (false, 0) }

/-- The linear chain a ← b ← c of spec §8 scenario 1: three Empty tasks,
b strong-upstream of a, c strong-upstream of b, everything off. -/
def chainState : PlanState :=
  { tasks := [("a", mkPTaskEmpty [("b", .strong)]),
              ("b", mkPTaskEmpty [("c", .strong)]),
              ("c", mkPTaskEmpty [])],
    downstream := [("b", [("a", .strong)]), ("c", [("b", .strong)])],
    clock := 0 }

/-- `TaskOn(a, true)` on the chain, through the plan-building planner. -/
def chainRun : PlanState × ExecutePlan :=
  plan_set_task_direct_on 40 chainState emptyPlan "a"

def specX : EmptySpec := { default_on := false, upstream := [("y", .strong)] }

def specY : EmptySpec := { default_on := false, upstream := [("x", .strong)] }

/-- After `TaskAdd(x, upstream={y})` on the empty store (y is a dead link). -/
def c2s1 : StateDynamic := (request_task_add 20 emptyDyn "x" (.empty specX) false).2

/-- The cycle-completing `TaskAdd(y, upstream={x})`. -/
def c2run : Except String Unit × StateDynamic :=
  request_task_add 20 c2s1 "y" (.empty specY) false

def lspec (ups : List (TaskId × DependencyType)) : LongSpec :=
  { default_on := false, upstream := ups }

/-- Three Long tasks chained by strong edges: u ← d ← e (u strong-upstream
of d, d strong-upstream of e), built by three TaskAdd requests. -/
def c3s2 : StateDynamic :=
  (request_task_add 40
    (request_task_add 40
      (request_task_add 40 emptyDyn "u" (.long (lspec [])) false).2
      "d" (.long (lspec [("u", .strong)])) false).2
    "e" (.long (lspec [("d", .strong)])) false).2

/-- `TaskOn(e, true)`: the cascade turns u and d transitively on and
dispatches u's driver (u goes Starting). -/
def c3s3 : StateDynamic := (request_task_on 40 c3s2 "e" true).2

/-- The drivers publish Started bottom-up: u, then d, then e. -/
def c3s6 : StateDynamic :=
  long_publish_started 40 (long_publish_started 40 (long_publish_started 40 c3s3 "u") "d") "e"

/-- u's child dies: its driver fires the Stopping event (the nested
`on_stopping`) and re-enters Starting — the spec's "publish Stopping, then
Starting" exit branch. -/
def c3s7 : StateDynamic := long_on_exit 40 c3s6 "u"

/-- Witness store for the start gate: a Long task g whose sole upstream m
is a dead link, so its upstream is not all-started. -/
def w3t : PTask :=
  { direct_on := (false, 0), transitive_on := (false, 0), upstream := [("m", .strong)],
    specific := .long (ProcState.stopped, 0) }

def w3s : PlanState := { tasks := [("g", w3t)], downstream := [], clock := 0 }

/-- One External task x added to the empty store. -/
def c4s0 : StateDynamic := (request_task_add 20 emptyDyn "x" Task.external false).2

/-- `TaskOn(x, true)` on the External task. -/
def c4run : Except String Unit × StateDynamic := request_task_on 20 c4s0 "x" true

def w4t : TaskState_ :=
  { user_on := (false, 0), transitive_on := (false, 0), specific := .external,
    started_waiters := 0, stopped_waiters := 0 }

def w4s : StateDynamic :=
  { tasks := [("x", w4t)], downstream := [], clock := 0, log := [], panicked := false }

/-- External x plus an off Empty task a with strong upstream x. -/
def c5s1 : StateDynamic :=
  (request_task_add 20 c4s0 "a"
    (.empty { default_on := false, upstream := [("x", .strong)] }) false).2

/-- `TaskOn(a, true)`: the cascade post-visits x and calls `do_start_task`
on it. -/
def c5run : Except String Unit × StateDynamic := request_task_on 30 c5s1 "a" true

def c6spec : ShortSpec :=
  { default_on := false, upstream := [], schedule := [], success_codes := [],
    started_action := some .delete }

def c6s1 : StateDynamic := (request_task_add 40 emptyDyn "t" (.short c6spec) false).2

/-- Adding an on Empty task y with strong upstream t turns t transitively
on and dispatches t's driver (t goes Starting with a live stop channel). -/
def c6s2 : StateDynamic :=
  (request_task_add 40 c6s1 "y"
    (.empty { default_on := true, upstream := [("t", .strong)] }) false).2

/-- t's child exits with code 0 (in the success set). -/
def c6run : StateDynamic × Bool := short_on_exit 40 c6s2 "t" (some 0)

def w6sp : TaskStateShort :=
  { spec := { default_on := false, upstream := [], schedule := [], success_codes := [0],
              started_action := some .delete },
    state := (ProcState.starting, 1), stop := true, pid := some 9, failed_start_count := 0 }

def w6t : TaskState_ :=
  { user_on := (true, 0), transitive_on := (false, 0), specific := .short w6sp,
    started_waiters := 0, stopped_waiters := 0 }

def w6s : StateDynamic :=
  { tasks := [("t", w6t)], downstream := [], clock := 2, log := [], panicked := false }

def w7t : PTask :=
  { direct_on := (true, 0), transitive_on := (false, 0), upstream := [],
    specific := .short (ProcState.started, 0) }

def w7s : PlanState := { tasks := [("z", w7t)], downstream := [], clock := 3 }

def w7t2 : PTask :=
  { direct_on := (true, 0), transitive_on := (false, 0), upstream := [],
    specific := .short (ProcState.starting, 0) }

def w7s2 : PlanState := { tasks := [("z", w7t2)], downstream := [], clock := 3 }

/-- A task that is on only via `transitive_on`; its `direct_on` cell is
(false, 0). -/
def c8t : PTask :=
  { direct_on := (false, 0), transitive_on := (true, 0), upstream := [],
    specific := .empty (false, 0) }

def c8state : PlanState := { tasks := [("z", c8t)], downstream := [], clock := 7 }

def c9xspec : EmptySpec := { default_on := false, upstream := [] }

/-- An on Empty task d with strong upstream x (x a dead link for now). -/
def cxs0 : StateDynamic :=
  (request_task_add 40 emptyDyn "d"
    (.empty { default_on := true, upstream := [("x", .strong)] }) false).2

/-- Adding x itself: d is on, so the add turns x transitively on and —
x being Empty with no upstream — starts it immediately. -/
def cxs1 : StateDynamic := (request_task_add 40 cxs0 "x" (.empty c9xspec) true).2

def c9wspec : EmptySpec := { default_on := false, upstream := [] }

def c9wspecT : Task := .empty c9wspec

def c9ws1 : StateDynamic := (request_task_add 10 emptyDyn "w" c9wspecT true).2

def c9wtask : TaskState_ := (alookup c9ws1.tasks "w").getD default

def w10t : TaskState_ :=
  { user_on := (true, 0), transitive_on := (false, 0),
    specific := .empty { started := (true, 0), spec := { default_on := false, upstream := [] } },
    started_waiters := 0, stopped_waiters := 0 }

def w10s : StateDynamic :=
  { tasks := [("r", w10t)], downstream := [], clock := 0, log := [], panicked := false }

def w10t2 : TaskState_ :=
  { user_on := (true, 0), transitive_on := (false, 0),
    specific := .empty { started := (false, 0), spec := { default_on := false, upstream := [] } },
    started_waiters := 0, stopped_waiters := 0 }

def w10s2 : StateDynamic :=
  { tasks := [("r", w10t2)], downstream := [], clock := 0, log := [], panicked := false }

def w10t3 : TaskState_ :=
  { user_on := (false, 0), transitive_on := (false, 0),
    specific := .empty { started := (false, 0), spec := { default_on := false, upstream := [] } },
    started_waiters := 0, stopped_waiters := 0 }

def w10s3 : StateDynamic :=
  { tasks := [("r", w10t3)], downstream := [], clock := 0, log := [], panicked := false }

/-! ## Association-list lemmas -/

theorem alookup_map_value {α β : Type} (f : α → β) (l : List (TaskId × α)) (id : TaskId) :
    alookup (l.map (fun p => (p.1, f p.2))) id = (alookup l id).map f := by
  induction l with
  | nil => rfl
  | cons hd tl ih =>
    simp only [List.map_cons, alookup]
    split <;> simp [ih]

theorem alookup_aupdate {α : Type} (l : List (TaskId × α)) (id : TaskId) (f : α → α) :
    alookup (aupdate l id f) id = (alookup l id).map f := by
  induction l with
  | nil => rfl
  | cons hd tl ih =>
    rcases hd with ⟨k, v⟩
    by_cases hk : k = id
    · simp [aupdate, alookup, hk]
    · simp [aupdate, alookup, hk, ih]

theorem alookup_append_single {α : Type} (l : List (TaskId × α)) (id : TaskId) (v : α)
    (h : alookup l id = none) : alookup (l ++ [(id, v)]) id = some v := by
  induction l with
  | nil => simp [alookup]
  | cons hd tl ih =>
    rcases hd with ⟨k, w⟩
    by_cases hk : k = id
    · simp [alookup, hk] at h
    · simp only [alookup, hk, if_false, List.cons_append, if_neg hk] at h ⊢
      exact ih h

theorem alookup_ainsert_self {α : Type} (l : List (TaskId × α)) (id : TaskId) (v : α) :
    alookup (ainsert l id v) id = some v := by
  unfold ainsert
  split
  · rename_i h
    rw [alookup_aupdate]
    cases e : alookup l id with
    | none => rw [e] at h; simp at h
    | some w => simp
  · rename_i h
    exact alookup_append_single l id v (by
      cases e : alookup l id with
      | none => rfl
      | some w => rw [e] at h; simp at h)

/-! ## specsView preservation: the planner never rewrites a task's spec -/

theorem specsView_aupdate_congr (l : List (TaskId × TaskState_)) (id : TaskId)
    (f : TaskState_ → TaskState_) (h : ∀ t, specOf (f t).specific = specOf t.specific) :
    (aupdate l id f).map (fun p => (p.1, specOf p.2.specific)) =
      l.map (fun p => (p.1, specOf p.2.specific)) := by
  induction l with
  | nil => rfl
  | cons hd tl ih =>
    rcases hd with ⟨k, v⟩
    by_cases hk : k = id
    · simp [aupdate, hk, h]
    · simp [aupdate, hk, ih]

theorem specsView_setSpecific (s : StateDynamic) (id : TaskId)
    (g : TaskStateSpecific → TaskStateSpecific) (h : ∀ sp, specOf (g sp) = specOf sp) :
    specsView (setSpecific s id g) = specsView s :=
  specsView_aupdate_congr s.tasks id _ (fun t => h t.specific)

theorem specsView_setUserOn (s : StateDynamic) (id : TaskId) (v : Bool × Nat) :
    specsView (setUserOn s id v) = specsView s :=
  specsView_aupdate_congr s.tasks id _ (fun _ => rfl)

theorem specsView_setTransitiveOn (s : StateDynamic) (id : TaskId) (v : Bool × Nat) :
    specsView (setTransitiveOn s id v) = specsView s :=
  specsView_aupdate_congr s.tasks id _ (fun _ => rfl)

theorem specsView_setEmptyStarted (s : StateDynamic) (id : TaskId) (v : Bool × Nat) :
    specsView (setEmptyStarted s id v) = specsView s :=
  specsView_setSpecific s id _ (fun sp => by cases sp <;> rfl)

theorem specsView_setLongState (s : StateDynamic) (id : TaskId) (v : ProcState × Nat) :
    specsView (setLongState s id v) = specsView s :=
  specsView_setSpecific s id _ (fun sp => by cases sp <;> rfl)

theorem specsView_setLongStop (s : StateDynamic) (id : TaskId) (b : Bool) :
    specsView (setLongStop s id b) = specsView s :=
  specsView_setSpecific s id _ (fun sp => by cases sp <;> rfl)

theorem specsView_setLongFailed (s : StateDynamic) (id : TaskId) (n : Nat) :
    specsView (setLongFailed s id n) = specsView s :=
  specsView_setSpecific s id _ (fun sp => by cases sp <;> rfl)

theorem specsView_setShortState (s : StateDynamic) (id : TaskId) (v : ProcState × Nat) :
    specsView (setShortState s id v) = specsView s :=
  specsView_setSpecific s id _ (fun sp => by cases sp <;> rfl)

theorem specsView_setShortStop (s : StateDynamic) (id : TaskId) (b : Bool) :
    specsView (setShortStop s id b) = specsView s :=
  specsView_setSpecific s id _ (fun sp => by cases sp <;> rfl)

theorem specsView_setShortPid (s : StateDynamic) (id : TaskId) (p : Option Nat) :
    specsView (setShortPid s id p) = specsView s :=
  specsView_setSpecific s id _ (fun sp => by cases sp <;> rfl)

theorem specsView_setShortFailed (s : StateDynamic) (id : TaskId) (n : Nat) :
    specsView (setShortFailed s id n) = specsView s :=
  specsView_setSpecific s id _ (fun sp => by cases sp <;> rfl)

theorem specsView_bumpShortFailed (s : StateDynamic) (id : TaskId) :
    specsView (bumpShortFailed s id) = specsView s :=
  specsView_setSpecific s id _ (fun sp => by cases sp <;> rfl)

theorem specsView_log_event (k : LogKind) (id : TaskId) (s : StateDynamic) :
    specsView (log_event k id s) = specsView s := rfl

theorem specsView_tickD (s : StateDynamic) : specsView (tickD s).2 = specsView s := rfl

theorem specsView_markPanic (s : StateDynamic) : specsView (markPanic s) = specsView s := rfl

theorem specsView_aupdate_waiters (s : StateDynamic) (id : TaskId) :
    specsView
      { s with
        tasks := aupdate s.tasks id fun t =>
          { t with started_waiters := t.started_waiters + 1 } } = specsView s :=
  specsView_aupdate_congr s.tasks id _ (fun _ => rfl)

theorem specsView_withClock (s : StateDynamic) (n : Nat) :
    specsView { s with clock := n } = specsView s := rfl

/-- Every function of the start cluster preserves the per-task spec view:
the planner may flip flags and process states but never rewrites a spec. -/
theorem start_cluster_specs : ∀ fuel,
    (∀ s id, specsView (do_start_task fuel s id).1 = specsView s) ∧
    (∀ s id, specsView (on_started fuel s id) = specsView s) ∧
    (∀ s id, specsView (push_started fuel s id) = specsView s) ∧
    (∀ s fr, specsView (push_started_loop fuel s fr) = specsView s) := by
  intro fuel
  induction fuel with
  | zero => exact ⟨fun _ _ => rfl, fun _ _ => rfl, fun _ _ => rfl, fun _ _ => rfl⟩
  | succ k ih =>
    obtain ⟨ih1, ih2, ih3, ih4⟩ := ih
    refine ⟨?_, ?_, ?_, ?_⟩
    · intro s id
      simp only [do_start_task]
      split
      · simp [specsView_markPanic]
      · rename_i t e
        split
        · split
          · rfl
          · split
            · simp [tickD, specsView_withClock, specsView_setEmptyStarted,
                specsView_log_event, ih2]
            · split
              · simp [tickD, specsView_withClock, specsView_setLongState, specsView_setLongStop]
              · rfl
            · split
              · simp [tickD, specsView_withClock, specsView_setShortState, specsView_setShortStop]
              · rfl
            · simp [specsView_markPanic]
        · rfl
    · intro s id
      simp only [on_started]
      simp [ih3, specsView_log_event]
    · intro s id
      simp only [push_started]
      exact ih4 _ _
    · intro s fr
      match fr with
      | [] => simp [push_started_loop]
      | id :: rest =>
        simp only [push_started_loop]
        split
        · simp [specsView_markPanic, ih4]
        · rename_i t e
          split
          · have h1 := ih1 s id
            cases hr : do_start_task k s id with
            | mk s' r =>
              rw [hr] at h1
              cases r <;> simp [hr, ih4, h1]
          · exact ih4 _ _

/-- Every function of the stop cluster preserves the per-task spec view. -/
theorem stop_cluster_specs : ∀ fuel,
    (∀ s id, specsView (do_stop_task fuel s id).1 = specsView s) ∧
    (∀ s id, specsView (on_stopped fuel s id) = specsView s) ∧
    (∀ s id, specsView (push_stopped fuel s id) = specsView s) ∧
    (∀ s fr, specsView (push_stopped_loop fuel s fr) = specsView s) := by
  intro fuel
  induction fuel with
  | zero => exact ⟨fun _ _ => rfl, fun _ _ => rfl, fun _ _ => rfl, fun _ _ => rfl⟩
  | succ k ih =>
    obtain ⟨ih1, ih2, ih3, ih4⟩ := ih
    refine ⟨?_, ?_, ?_, ?_⟩
    · intro s id
      simp only [do_stop_task]
      split
      · simp [specsView_markPanic]
      · rename_i t e
        split
        · split
          · rfl
          · split
            · simp [tickD, specsView_withClock, specsView_setEmptyStarted,
                specsView_log_event, ih2]
            · split
              · simp [tickD, specsView_withClock, specsView_setLongState, specsView_setLongStop]
              · rfl
            · split
              · simp [tickD, specsView_withClock, specsView_setShortState, specsView_setShortStop]
              · rfl
            · simp [specsView_markPanic]
        · rfl
    · intro s id
      simp only [on_stopped]
      simp [ih3, specsView_log_event]
    · intro s id
      simp only [push_stopped]
      split
      · simp [specsView_markPanic]
      · exact ih4 _ _
    · intro s fr
      match fr with
      | [] => simp [push_stopped_loop]
      | id :: rest =>
        simp only [push_stopped_loop]
        split
        · exact ih4 _ _
        · rename_i t e
          split
          · exact ih4 _ _
          · have h1 := ih1 s id
            cases hr : do_stop_task k s id with
            | mk s' r =>
              rw [hr] at h1
              cases r <;> simp [hr, ih4, h1]

theorem specs_on_stopping_loop : ∀ fuel s fr,
    specsView (on_stopping_loop fuel s fr) = specsView s := by
  intro fuel
  induction fuel with
  | zero => intro s fr; rfl
  | succ k ih =>
    intro s fr
    match fr with
    | [] => simp [on_stopping_loop]
    | id :: rest =>
      simp only [on_stopping_loop]
      split
      · simp [specsView_markPanic, ih]
      · rename_i t e
        split
        · have h1 := (stop_cluster_specs k).1 s id
          cases hr : do_stop_task k s id with
          | mk s' r =>
            rw [hr] at h1
            simp [hr, ih, h1]
        · exact ih _ _

theorem specs_on_stopping (fuel : Nat) (s : StateDynamic) (id : TaskId) :
    specsView (on_stopping fuel s id) = specsView s := by
  simp [on_stopping, specs_on_stopping_loop, specsView_log_event]

theorem specs_propagate_loop : ∀ fuel s fr,
    specsView (propagate_transitive_on_loop fuel s fr) = specsView s := by
  intro fuel
  induction fuel with
  | zero => intro s fr; rfl
  | succ k ih =>
    intro s fr
    match fr with
    | [] => rfl
    | (first, id) :: rest =>
      simp only [propagate_transitive_on_loop]
      split
      · split
        · exact ih _ _
        · rename_i t e
          split
          · simp [tickD, specsView_withClock, specsView_setTransitiveOn, ih]
          · simp [tickD, specsView_withClock, specsView_setTransitiveOn, ih]
      · split
        · simp [specsView_markPanic, ih]
        · rename_i t e
          split
          · have h1 := (start_cluster_specs k).1 s id
            cases hr : do_start_task k s id with
            | mk s' r =>
              rw [hr] at h1
              simp [hr, ih, h1]
          · exact ih _ _

theorem specs_propagate (fuel : Nat) (s : StateDynamic) (root : TaskId) :
    specsView (propagate_task_transitive_on fuel s root) = specsView s :=
  specs_propagate_loop fuel s _

theorem specs_foldl_propagate (fuel : Nat) (deps : List TaskId) :
    ∀ s, specsView (deps.foldl (fun s dep => propagate_task_transitive_on fuel s dep) s) =
      specsView s := by
  induction deps with
  | nil => intro s; rfl
  | cons hd tl ih =>
    intro s
    simp only [List.foldl_cons]
    rw [ih, specs_propagate]

theorem specs_set_task_user_on (fuel : Nat) (s : StateDynamic) (root : TaskId) :
    specsView (set_task_user_on fuel s root) = specsView s := by
  simp only [set_task_user_on]
  split
  · simp [specsView_markPanic]
  · rename_i t e
    split
    · simp [tickD, specsView_withClock, specsView_setUserOn]
    · rw [(start_cluster_specs fuel).2.2.1, specs_foldl_propagate]
      simp [tickD, specsView_withClock, specsView_setUserOn]

theorem specs_transitive_off_loop : ∀ fuel s fr,
    specsView (transitive_off_loop fuel s fr) = specsView s := by
  intro fuel
  induction fuel with
  | zero => intro s fr; rfl
  | succ k ih =>
    intro s fr
    match fr with
    | [] => rfl
    | id :: rest =>
      simp only [transitive_off_loop]
      split
      · exact ih _ _
      · rename_i t e
        split
        · split
          · simp [tickD, specsView_withClock, specsView_setTransitiveOn, ih]
          · exact ih _ _
        · exact ih _ _

theorem specs_user_off_stop_loop : ∀ fuel s fr stk,
    specsView (user_off_stop_loop fuel s fr stk).1 = specsView s := by
  intro fuel
  induction fuel with
  | zero => intro s fr stk; rfl
  | succ k ih =>
    intro s fr stk
    match fr with
    | [] => rfl
    | (first, id) :: rest =>
      simp only [user_off_stop_loop]
      split
      · split
        · simp [specsView_markPanic, ih]
        · rename_i t e
          split
          · exact ih _ _ _
          · exact ih _ _ _
      · split
        · simp [specsView_markPanic, ih]
        · rename_i t e
          match stk with
          | [] => simp [specsView_markPanic]
          | all_ds :: stk' =>
            simp only []
            split
            · have h1 := (stop_cluster_specs k).1 s id
              cases hr : do_stop_task k s id with
              | mk s' r =>
                rw [hr] at h1
                cases r <;> simp [hr, ih, h1]
            · exact ih _ _ _

theorem specs_set_task_user_off (fuel : Nat) (s : StateDynamic) (id : TaskId) :
    specsView (set_task_user_off fuel s id).1 = specsView s := by
  simp only [set_task_user_off]
  split
  · simp [specsView_markPanic]
  · rename_i t e
    split
    · split
      · simp [tickD, specsView_withClock, specsView_setUserOn]
      · have hoff := specs_transitive_off_loop fuel
          (setUserOn (tickD s).2 id (false, (tickD s).1)) (strongUpstreamIds t)
        cases hu : user_off_stop_loop fuel
          (transitive_off_loop fuel (setUserOn (tickD s).2 id (false, (tickD s).1))
            (strongUpstreamIds t)) [(true, id)] [true] with
        | mk s2 stk =>
          have h2 := specs_user_off_stop_loop fuel
            (transitive_off_loop fuel (setUserOn (tickD s).2 id (false, (tickD s).1))
              (strongUpstreamIds t)) [(true, id)] [true]
          rw [hu] at h2
          split
          · rw [(stop_cluster_specs fuel).2.2.1, h2, hoff]
            simp [tickD, specsView_withClock, specsView_setUserOn]
          · rw [h2, hoff]
            simp [tickD, specsView_withClock, specsView_setUserOn]
    · rfl

theorem specs_short_success_turn_off (fuel : Nat) (s : StateDynamic) (id : TaskId) :
    specsView (short_success_turn_off fuel s id) = specsView s := by
  simp [short_success_turn_off, specs_set_task_user_off, specsView_log_event]

/-! ## View consequences and TaskAdd helpers -/

theorem alookup_specsView (s : StateDynamic) (id : TaskId) :
    alookup (specsView s) id = (alookup s.tasks id).map (fun t => specOf t.specific) := by
  unfold specsView
  exact alookup_map_value (fun t => specOf t.specific) s.tasks id

theorem alookup_isSome_of_specsView (s1 s2 : StateDynamic) (h : specsView s1 = specsView s2)
    (id : TaskId) : (alookup s1.tasks id).isSome = (alookup s2.tasks id).isSome := by
  have h2 : (alookup s1.tasks id).map (fun t => specOf t.specific) =
      (alookup s2.tasks id).map (fun t => specOf t.specific) := by
    rw [← alookup_specsView, ← alookup_specsView, h]
  cases e1 : alookup s1.tasks id <;> cases e2 : alookup s2.tasks id <;>
    simp [e1, e2] at h2 ⊢

theorem get_spec_of_view (s1 s2 : StateDynamic) (h : specsView s1 = specsView s2)
    (id : TaskId) : request_task_get_spec s1 id = request_task_get_spec s2 id := by
  have h2 : (alookup s1.tasks id).map (fun t => specOf t.specific) =
      (alookup s2.tasks id).map (fun t => specOf t.specific) := by
    rw [← alookup_specsView, ← alookup_specsView, h]
  unfold request_task_get_spec
  cases e1 : alookup s1.tasks id <;> cases e2 : alookup s2.tasks id <;>
    simp [e1, e2] at h2 ⊢
  exact h2

theorem get_spec_build (s : StateDynamic) (id : TaskId) (spec : Task) :
    request_task_get_spec (build_task s id spec) id = .ok spec := by
  cases spec <;>
    simp [build_task, request_task_get_spec, alookup_ainsert_self, mkTaskState, tickD, specOf]

theorem task_find_cycles_absent (fuel : Nat) (s : StateDynamic) (id : TaskId)
    (h : alookup s.tasks id = none) : task_find_cycles fuel s id = none := by
  match fuel with
  | 0 => rfl
  | 1 => simp [task_find_cycles, task_find_cycles_loop, h]
  | 2 => simp [task_find_cycles, task_find_cycles_loop, h]
  | (n+3) => simp [task_find_cycles, task_find_cycles_loop, h]

/-- A cycle-free TaskAdd core succeeds and produces a store whose spec view
is exactly that of `build_task`. -/
theorem core_result (fuel : Nat) (s : StateDynamic) (id : TaskId) (spec : Task)
    (htfc : task_find_cycles fuel s id = none) :
    ∃ s', request_task_add_core fuel s id spec = (Except.ok (), s') ∧
      specsView s' = specsView (build_task s id spec) := by
  unfold request_task_add_core
  rw [htfc]
  simp only []
  split
  · exact ⟨_, rfl, specs_set_task_user_on _ _ _⟩
  · split
    · refine ⟨_, rfl, ?_⟩
      rw [(start_cluster_specs fuel).2.2.1, specs_propagate]
    · exact ⟨_, rfl, rfl⟩

/-! ## Claim theorems -/

/-- C1: on the chain a ← b ← c (strong edges, all Empty, all off), a single
`TaskOn(a, true)` through `plan_set_task_direct_on` leaves c, b and a all
started, and their stored `started` timestamps show they became started in
the order c, then b, then a. -/
theorem c1_linear_chain_start_order :
    (emptyStartedFlag chainRun.1 "c").1 = true ∧
    (emptyStartedFlag chainRun.1 "b").1 = true ∧
    (emptyStartedFlag chainRun.1 "a").1 = true ∧
    (emptyStartedFlag chainRun.1 "c").2 < (emptyStartedFlag chainRun.1 "b").2 ∧
    (emptyStartedFlag chainRun.1 "b").2 < (emptyStartedFlag chainRun.1 "a").2 := by
  decide

/-- C2 (code bug): starting from the empty store, `TaskAdd(x, upstream={y})`
succeeds, and the cycle-completing `TaskAdd(y, upstream={x})` does NOT fail
— it returns Ok, y is present afterwards, and the resulting store contains
a dependency cycle (the source's own `task_find_cycles` finds x→y→x in
it). The handler runs the cycle check before `build_task` inserts the new
record, so the check can never see the new task's upstream edges. -/
theorem c2_cycle_add_accepted :
    (request_task_add 20 emptyDyn "x" (.empty specX) false).1 = Except.ok () ∧
    c2run.1 = Except.ok () ∧
    (alookup c2run.2.tasks "y").isSome = true ∧
    (task_find_cycles 20 c2run.2 "x").isSome = true ∧
    c2run.2.panicked = false := by
  decide

/-- C3 (amended): the start path preserves the strong-upstream gate —
`plan_start_one_task` refuses to start (returns false without touching the
store or the plan) any task whose upstream tasks are not all started; the
invariant itself is not preserved by `on_stopping` (see the
counterexample). -/
theorem c3_start_gate_upstream (fuel : Nat) (s : PlanState) (p : ExecutePlan) (id : TaskId)
    (t : PTask) (hl : alookup s.tasks id = some t)
    (h : are_all_upstream_tasks_started s t = false) :
    plan_start_one_task (fuel+1) s p id = (s, p, false) := by
  simp [plan_start_one_task, hl, h]

theorem c3_start_gate_upstream_witness :
    plan_start_one_task 1 w3s emptyPlan "g" = (w3s, emptyPlan, false) :=
  c3_start_gate_upstream 0 w3s emptyPlan "g" w3t rfl (by decide)

/-- C3 counterexample: u ← d ← e, three Long tasks chained by strong edges,
built and started through the request handlers and driver publications; the
strong-upstream-started invariant holds with all three started, but after
u's child dies — the driver publishes the Stopping event (`on_stopping`)
and re-enters Starting — d is still started (e, its own downstream, was not
yet stopped, so `do_stop_task(d)` failed its gate and changed nothing)
while its strong upstream u is not started: the invariant is false in the
post-lock state. -/
theorem c3_invariant_broken_on_stopping :
    strong_upstream_started_inv c3s6 = true ∧
    strong_upstream_started_inv c3s7 = false ∧
    ((alookup c3s7.tasks "d").map task_started) = some true ∧
    ((alookup c3s7.tasks "u").map task_started) = some false ∧
    c3s7.panicked = false := by
  decide

/-- C4 (amended): an External task is never started and always stopped, in
any store whatsoever — but `TaskOn(t, true)` does set its direct-on flag
(see the counterexample), so "permanently off" does not hold. -/
theorem c4_external_never_started_stopped (s : StateDynamic) (id : TaskId) (t : TaskState_)
    (_hl : alookup s.tasks id = some t) (hk : t.specific = .external) :
    task_started t = false ∧ task_stopped t = true := by
  simp [task_started, task_stopped, hk]

theorem c4_external_never_started_stopped_witness :
    task_started w4t = false ∧ task_stopped w4t = true :=
  c4_external_never_started_stopped w4s "x" w4t rfl rfl

/-- C4 counterexample: with External task x added to the empty store (so
the state is reachable), the `TaskOn(x, true)` handler flips x's `user_on`
to true: `is_on(x)` goes from false to true, contradicting "a TaskOn(t,
true) request does not make an External task on". -/
theorem c4_taskon_turns_external_on :
    ((alookup c4s0.tasks "x").map task_on) = some false ∧
    ((alookup c4run.2.tasks "x").map task_on) = some true ∧
    ((alookup c4run.2.tasks "x").map (fun t => decide (t.specific = .external))) = some true ∧
    c4run.2.panicked = false := by
  decide

/-- C5 (code bug): with External task x and an off Empty task a whose
strong upstream is x (both added through the TaskAdd handler, so the state
is reachable), the `TaskOn(a, true)` handler drives the transitive-on
cascade into `do_start_task` on x — the External arm of `do_start_task`,
the source's `unreachable!` — recorded by the sticky `panicked` flag. -/
theorem c5_unreachable_external_start_reached :
    ((alookup c5s1.tasks "x").map (fun t => decide (t.specific = .external))) = some true ∧
    c5s1.panicked = false ∧
    c5run.2.panicked = true := by
  decide

/-- C6 (amended): when a Short task with `started_action = Delete` exits
with a code in its success set, the driver behaves exactly as for TurnOff —
it resets the failure counter, marks Started, emits the
started/stopping/stopped log sequence and invokes `set_task_user_off` (the
shared `TurnOff | Delete` arm, embedded as `short_success_turn_off`) — but
it does NOT remove the task record; removal happens only in the stop
branch. -/
theorem c6_success_delete_acts_as_turnoff_no_removal (fuel : Nat) (s : StateDynamic)
    (id : TaskId) (t : TaskState_) (sp : TaskStateShort) (c : Int)
    (hl : alookup s.tasks id = some t) (hsp : t.specific = .short sp)
    (ha : sp.spec.started_action = some .delete) (hc : c ∈ successCodesOf sp.spec) :
    short_on_exit fuel s id (some c) =
      (short_success_turn_off fuel
        (setShortState (tickD (setShortFailed s id 0)).2 id
          (ProcState.started, (tickD (setShortFailed s id 0)).1)) id, true) ∧
    (alookup (short_on_exit fuel s id (some c)).1.tasks id).isSome = true := by
  have hbr : short_on_exit fuel s id (some c) =
      (short_success_turn_off fuel
        (setShortState (tickD (setShortFailed s id 0)).2 id
          (ProcState.started, (tickD (setShortFailed s id 0)).1)) id, true) := by
    simp [short_on_exit, hl, hsp, ha, hc]
  refine ⟨hbr, ?_⟩
  rw [hbr]
  have hv : specsView (short_success_turn_off fuel
      (setShortState (tickD (setShortFailed s id 0)).2 id
        (ProcState.started, (tickD (setShortFailed s id 0)).1)) id) = specsView s := by
    rw [specs_short_success_turn_off, specsView_setShortState, specsView_tickD,
      specsView_setShortFailed]
  rw [alookup_isSome_of_specsView _ _ hv, hl]
  rfl

theorem c6_success_delete_acts_as_turnoff_no_removal_witness :
    short_on_exit 5 w6s "t" (some 0) =
      (short_success_turn_off 5
        (setShortState (tickD (setShortFailed w6s "t" 0)).2 "t"
          (ProcState.started, (tickD (setShortFailed w6s "t" 0)).1)) "t", true) ∧
    (alookup (short_on_exit 5 w6s "t" (some 0)).1.tasks "t").isSome = true :=
  c6_success_delete_acts_as_turnoff_no_removal 5 w6s "t" w6t w6sp 0 rfl rfl rfl (by decide)

/-- C6 counterexample: a reachable store with an on, Starting Short task t
whose spec has `started_action = Delete`; after its child exits with code 0
(in the success set) the record of t is still present — the claim's "then
additionally removes the task record from the store" is false. The stop
branch, by contrast, does delete it. -/
theorem c6_success_delete_keeps_record :
    ((alookup c6s2.tasks "t").map task_on) = some true ∧
    (alookup c6run.1.tasks "t").isSome = true ∧
    c6run.2 = true ∧
    c6run.1.panicked = false ∧
    (alookup (short_on_stop 40 c6s2 "t").tasks "t").isSome = false := by
  decide

/-- C7: for a Short task whose downstream tasks are all stopped,
`plan_stop_one_task` with `proc_state = Started` transitions it directly to
Stopped (with a log-stopping entry) without enqueuing any stop request and
returns false; in any other non-stopped proc_state it enqueues a stop
request, leaves the store unchanged and returns false. -/
theorem c7_plan_stop_short_cases (fuel : Nat) (s : PlanState) (p : ExecutePlan) (id : TaskId)
    (t : PTask) (st : ProcState × Nat)
    (hl : alookup s.tasks id = some t) (hspec : t.specific = .short st)
    (hds : are_all_downstream_tasks_stopped s id = true) :
    (st.1 = ProcState.started →
      plan_stop_one_task (fuel+1) s p id =
        (planSetShortState (ptick s).2 id (ProcState.stopped, (ptick s).1),
         { p with log_stopping := sinsert id p.log_stopping }, false)) ∧
    (st.1 ≠ ProcState.started → st.1 ≠ ProcState.stopped →
      plan_stop_one_task (fuel+1) s p id =
        (s, { p with stop := sinsert id p.stop }, false)) := by
  constructor
  · intro h1
    simp [plan_stop_one_task, hl, hds, is_task_stopped, hspec, h1, ptick]
  · intro h1 h2
    simp [plan_stop_one_task, hl, hds, is_task_stopped, hspec, h1, h2]

theorem c7_plan_stop_short_cases_witness :
    (plan_stop_one_task 1 w7s emptyPlan "z" =
      (planSetShortState (ptick w7s).2 "z" (ProcState.stopped, (ptick w7s).1),
       { emptyPlan with log_stopping := sinsert "z" emptyPlan.log_stopping }, false)) ∧
    (plan_stop_one_task 1 w7s2 emptyPlan "z" =
      (w7s2, { emptyPlan with stop := sinsert "z" emptyPlan.stop }, false)) :=
  ⟨(c7_plan_stop_short_cases 0 w7s emptyPlan "z" w7t (ProcState.started, 0) rfl rfl
      (by decide)).1 rfl,
   (c7_plan_stop_short_cases 0 w7s2 emptyPlan "z" w7t2 (ProcState.starting, 0) rfl rfl
      (by decide)).2 (by decide) (by decide)⟩

/-- C8 (amended): when `plan_set_task_direct_on` is invoked on a task that
is already on, the call still sets the task's `direct_on` cell to true with
a fresh timestamp — that unconditional set happens before the early return
— and then returns with no other change to the store and no plan entries. -/
theorem c8_already_on_sets_direct_on_only (fuel : Nat) (s : PlanState) (p : ExecutePlan)
    (id : TaskId) (t : PTask)
    (hl : alookup s.tasks id = some t) (hon : is_task_on t = true) :
    plan_set_task_direct_on fuel s p id =
      (planSetDirectOn (ptick s).2 id (true, (ptick s).1), p) := by
  simp [plan_set_task_direct_on, hl, hon]

theorem c8_already_on_sets_direct_on_only_witness :
    plan_set_task_direct_on 5 c8state emptyPlan "z" =
      (planSetDirectOn (ptick c8state).2 "z" (true, (ptick c8state).1), emptyPlan) :=
  c8_already_on_sets_direct_on_only 5 c8state emptyPlan "z" c8t rfl rfl

/-- C8 counterexample: task z is on only via `transitive_on` and its
`direct_on` cell is (false, 0); after `plan_set_task_direct_on` the cell is
(true, 7) — the task record is modified (flag flipped, timestamp
refreshed), contradicting "returns without modifying the task record". -/
theorem c8_direct_on_mutated_when_already_on :
    ((alookup (plan_set_task_direct_on 10 c8state emptyPlan "z").1.tasks "z").map
        PTask.direct_on) = some (true, 7) ∧
    ((alookup c8state.tasks "z").map PTask.direct_on) = some (false, 0) ∧
    is_task_on c8t = true := by
  decide

/-- C9 (amended): after a successful fresh `TaskAdd(id, spec)` the handler
returns Ok and `TaskGetSpec(id)` returns exactly `spec`; and repeating the
identical `TaskAdd(id, spec)` with `unique = true` against an already-equal
existing task succeeds as an exact no-op provided the task is stopped —
when the first add left it started, the repeat fails instead (see the
counterexample). -/
theorem c9_roundtrip_and_stopped_noop (fuel : Nat) (s : StateDynamic) (id : TaskId)
    (spec : Task) :
    (∀ t, alookup s.tasks id = some t → taskSpecEq spec t.specific = true →
      task_stopped t = true → request_task_add fuel s id spec true = (Except.ok (), s)) ∧
    (alookup s.tasks id = none →
      (request_task_add fuel s id spec true).1 = Except.ok () ∧
      request_task_get_spec (request_task_add fuel s id spec true).2 id = Except.ok spec) := by
  constructor
  · intro t hl hsame hstop
    simp [request_task_add, hl, hstop, hsame]
  · intro habs
    have hcore : request_task_add fuel s id spec true = request_task_add_core fuel s id spec := by
      simp [request_task_add, habs]
    obtain ⟨s', heq, hview⟩ :=
      core_result fuel s id spec (task_find_cycles_absent fuel s id habs)
    rw [hcore, heq]
    exact ⟨rfl, by rw [get_spec_of_view _ _ hview, get_spec_build]⟩

theorem c9_roundtrip_and_stopped_noop_witness :
    ((request_task_add 10 emptyDyn "w" c9wspecT true).1 = Except.ok () ∧
     request_task_get_spec (request_task_add 10 emptyDyn "w" c9wspecT true).2 "w" =
       Except.ok c9wspecT) ∧
    request_task_add 10 c9ws1 "w" c9wspecT true = (Except.ok (), c9ws1) :=
  ⟨(c9_roundtrip_and_stopped_noop 10 emptyDyn "w" c9wspecT).2 rfl,
   (c9_roundtrip_and_stopped_noop 10 c9ws1 "w" c9wspecT).1 c9wtask (by decide) (by decide)
     (by decide)⟩

/-- C9 counterexample: d (on, with strong upstream x) is added first, so
adding x starts it during the add; the repeated identical
`TaskAdd(x, spec, unique=true)` against the already-equal task then fails
with "Task isn't stopped yet" instead of succeeding as a no-op (the
stopped check runs before the equal-spec check). -/
theorem c9_repeat_add_fails_when_started :
    ((alookup cxs1.tasks "x").map task_started) = some true ∧
    taskSpecEq (.empty c9xspec) ((alookup cxs1.tasks "x").getD default).specific = true ∧
    (request_task_add 40 cxs1 "x" (.empty c9xspec) true).1 =
      Except.error "Task isn't stopped yet" ∧
    (request_task_add 40 cxs1 "x" (.empty c9xspec) true).2 = cxs1 := by
  decide

/-- C10: the under-lock section of TaskWaitStarted resolves without
suspending in two cases — an immediate error when the task exists but is
not on, an immediate success when it is on and already started — and it
attaches a one-shot waiter (leaving everything else unchanged) exactly
when the task is on and not yet started. -/
theorem c10_wait_started_immediate_cases (s : StateDynamic) (id : TaskId) (t : TaskState_)
    (hl : alookup s.tasks id = some t) :
    (task_on t = false → request_task_wait_started s id =
      (.immediateError ("Task [" ++ id ++ "] is not on"), s)) ∧
    (task_on t = true → task_started t = true →
      request_task_wait_started s id = (.immediateOk, s)) ∧
    (task_on t = true → task_started t = false →
      request_task_wait_started s id =
        (.waits,
         { s with
            tasks := aupdate s.tasks id fun t =>
              { t with started_waiters := t.started_waiters + 1 } })) := by
  refine ⟨?_, ?_, ?_⟩ <;> intros <;> simp [request_task_wait_started, hl, *]

theorem c10_wait_started_immediate_cases_witness :
    request_task_wait_started w10s3 "r" =
      (.immediateError ("Task [" ++ "r" ++ "] is not on"), w10s3) ∧
    request_task_wait_started w10s "r" = (.immediateOk, w10s) ∧
    request_task_wait_started w10s2 "r" =
      (.waits,
       { w10s2 with
          tasks := aupdate w10s2.tasks "r" fun t =>
            { t with started_waiters := t.started_waiters + 1 } }) :=
  ⟨(c10_wait_started_immediate_cases w10s3 "r" w10t3 rfl).1 rfl,
   (c10_wait_started_immediate_cases w10s "r" w10t rfl).2.1 rfl rfl,
   (c10_wait_started_immediate_cases w10s2 "r" w10t2 rfl).2.2 rfl rfl⟩

end Puteron
